import Mathlib

/-!
Verification of the RPC Redundancy & Resilience Layer.

This file embeds, in Lean, the data model and operations of:
  - the endpoint rotation logic shared by `WebSocketManagerFactory.switchEndpoint`
    (src/utils/managers/websocketManagerFactory.ts) and
    `ConnectionManager.switchEndpoint` (the request-channel pool);
  - the subscription-channel session state machine `WebSocketManager`
    (src/utils/managers/websocketManager.ts);
  - the factory's event handlers (open / message / error / state_change);
  - the request-channel pool `ConnectionManager` (getConnection / connect).

JavaScript `Set<number>` becomes `Finset ℕ`; JavaScript numbers used for
delays become `ℚ` (the computations involved are exact decimal arithmetic);
`Math.random() * 0.3 + 0.85` becomes an explicit jitter parameter constrained
to the interval [0.85, 1.15]; `Infinity` for maxRetries becomes `Option ℕ`
with `none` standing for an unbounded retry budget; a thrown exception
becomes an `Except` error value; `undefined` from an out-of-range array
access becomes `none` from `List.get?`.
-/

namespace Rotation

/-- The endpoint-scanning while loop shared by both `switchEndpoint`
implementations:
`while (failed.has(nextIndex) && attemptCount < n) { nextIndex = (nextIndex + 1) % n; attemptCount++ }`.
The fuel argument is `n - attemptCount`. -/
def walk (n : ℕ) (failed : Finset ℕ) : ℕ → ℕ → ℕ
  | nextIndex, 0 => nextIndex
  | nextIndex, fuel + 1 =>
    if nextIndex ∈ failed then walk n failed ((nextIndex + 1) % n) fuel else nextIndex

/-- The rotation core of `switchEndpoint` in both files: mark the current
index failed, clear the failed set when it covers the whole table, then scan
forward circularly from the successor of the current index, skipping failed
indices, for at most `n` steps. Returns the new current index and the new
failed set. -/
def switchEndpoint (n current : ℕ) (failed : Finset ℕ) : ℕ × Finset ℕ :=
  let failed1 := insert current failed
  let failed2 := if n ≤ failed1.card then (∅ : Finset ℕ) else failed1
  let next := walk n failed2 ((current + 1) % n) n
  (next, failed2)

theorem walk_lt (n : ℕ) (failed : Finset ℕ) (hn : 0 < n) :
    ∀ (fuel nextIndex : ℕ), nextIndex < n → walk n failed nextIndex fuel < n := by
  intro fuel
  induction fuel with
  | zero => intro nextIndex h; simpa [walk] using h
  | succ f ih =>
    intro nextIndex h
    simp only [walk]
    split
    · exact ih _ (Nat.mod_lt _ hn)
    · exact h

theorem walk_not_mem (n : ℕ) (failed : Finset ℕ) :
    ∀ (fuel nextIndex : ℕ), nextIndex < n →
      (∃ k, k < fuel ∧ (nextIndex + k) % n ∉ failed) →
      walk n failed nextIndex fuel ∉ failed := by
  intro fuel
  induction fuel with
  | zero => intro nextIndex _ h; rcases h with ⟨k, hk, _⟩; omega
  | succ f ih =>
    intro nextIndex hlt h
    rcases h with ⟨k, hk, hfree⟩
    simp only [walk]
    split
    · rename_i hmem
      rcases k with _ | k'
      · exfalso
        rw [Nat.add_zero, Nat.mod_eq_of_lt hlt] at hfree
        exact hfree hmem
      · refine ih ((nextIndex + 1) % n) (Nat.mod_lt _ (by omega)) ⟨k', by omega, ?_⟩
        rw [Nat.mod_add_mod]
        have : nextIndex + 1 + k' = nextIndex + (k' + 1) := by omega
        rw [this]
        exact hfree
    · rename_i hmem
      exact hmem

/-- When the failed set does not cover the table, the scan starting anywhere
in range finds an index outside the failed set within `n` steps. -/
theorem exists_free (n : ℕ) (failed : Finset ℕ) (hcard : failed.card < n)
    (s : ℕ) (hs : s < n) : ∃ k, k < n ∧ (s + k) % n ∉ failed := by
  have hex : ∃ i, i < n ∧ i ∉ failed := by
    by_contra hall
    push_neg at hall
    have hsub : Finset.range n ⊆ failed := by
      intro i hi
      exact hall i (Finset.mem_range.mp hi)
    have := Finset.card_le_card hsub
    rw [Finset.card_range] at this
    omega
  rcases hex with ⟨i, hi, hfree⟩
  by_cases hcmp : s ≤ i
  · refine ⟨i - s, by omega, ?_⟩
    have : s + (i - s) = i := by omega
    rw [this, Nat.mod_eq_of_lt hi]
    exact hfree
  · refine ⟨i + n - s, by omega, ?_⟩
    have : s + (i + n - s) = i + n := by omega
    rw [this, Nat.add_mod_right, Nat.mod_eq_of_lt hi]
    exact hfree

/-- Clearing rule: once the current index is marked failed, if the failed set
covers the whole table it is cleared before selection. -/
theorem switchEndpoint_clears (n current : ℕ) (failed : Finset ℕ)
    (h : n ≤ (insert current failed).card) :
    (switchEndpoint n current failed).2 = ∅ := by
  simp [switchEndpoint, h]

/-- Skipping rule: when the failed set (current index included) does not cover
the table, the selected index is outside the failed set. -/
theorem switchEndpoint_skips (n current : ℕ) (failed : Finset ℕ)
    (h : (insert current failed).card < n) :
    (switchEndpoint n current failed).1 ∉ (switchEndpoint n current failed).2 ∧
      (switchEndpoint n current failed).2 = insert current failed := by
  have hn : 0 < n := lt_of_le_of_lt (Nat.zero_le _) h
  have hnotle : ¬ n ≤ (insert current failed).card := by omega
  constructor
  · simp only [switchEndpoint, hnotle, if_neg hnotle]
    exact walk_not_mem n (insert current failed) n ((current + 1) % n)
      (Nat.mod_lt _ hn)
      (exists_free n (insert current failed) h ((current + 1) % n) (Nat.mod_lt _ hn))
  · simp [switchEndpoint, hnotle]

/-- The selected index is always in range. -/
theorem switchEndpoint_lt (n current : ℕ) (failed : Finset ℕ) (hn : 0 < n) :
    (switchEndpoint n current failed).1 < n := by
  simp only [switchEndpoint]
  exact walk_lt n _ hn n _ (Nat.mod_lt _ hn)

end Rotation

namespace WebSocketManager

/-- The `ConnectionState` enum from websocketManager.ts. -/
inductive ConnState
  | disconnected
  | connecting
  | connected
  | reconnecting
  | error
deriving DecidableEq, Repr

/-- Events emitted by a `WebSocketManager` session. -/
inductive WSEvent
  | open
  | message (data : String)
  | error (msg : String)
  | stateChange (s : ConnState)
  | maxRetriesReached
deriving DecidableEq, Repr

/-- Constructor options (url omitted: the model never dereferences it). -/
structure WSOptions where
  initialBackoff : Option ℚ := none
  maxBackoff : Option ℚ := none
  maxRetries : Option ℕ := none
deriving DecidableEq, Repr

/-- JavaScript `value || default`: a missing OR zero value falls back. -/
def orFalsy (o : Option ℚ) (d : ℚ) : ℚ :=
  match o with
  | some v => if v = 0 then d else v
  | none => d

/-- Model of `options.maxRetries || Infinity`: `none` is an unbounded budget. -/
def retriesOrInfinity (o : Option ℕ) : Option ℕ :=
  match o with
  | some v => if v = 0 then none else some v
  | none => none

/-- The mutable fields of a `WebSocketManager`. `reconnectTimer` records the
delay of the pending timer (`none` = no timer); `wsPresent` records whether a
socket handle is held. -/
structure SessionState where
  state : ConnState
  retryCount : ℕ
  backoffTime : ℚ
  maxBackoff : ℚ
  maxRetries : Option ℕ
  reconnectTimer : Option ℚ
  wsPresent : Bool
deriving DecidableEq, Repr

/-- The `WebSocketManager` constructor. -/
def mkSession (opts : WSOptions) : SessionState :=
  { state := ConnState.disconnected
    retryCount := 0
    backoffTime := orFalsy opts.initialBackoff 1000
    maxBackoff := orFalsy opts.maxBackoff 30000
    maxRetries := retriesOrInfinity opts.maxRetries
    reconnectTimer := none
    wsPresent := false }

/-- Model of `setState`: update the state and emit `state_change` only on change. -/
def setState (s : SessionState) (st : ConnState) : SessionState × List WSEvent :=
  if s.state ≠ st then ({ s with state := st }, [WSEvent.stateChange st])
  else (s, [])

/-- Model of `cleanUp`: clear the pending reconnect timer and drop the socket handle. -/
def cleanUp (s : SessionState) : SessionState :=
  { s with reconnectTimer := none, wsPresent := false }

/-- The `open` listener: state to Connected, retry counter to 0, backoff time
to the literal 1000, then emit `open`. -/
def onOpen (s : SessionState) : SessionState × List WSEvent :=
  let p := setState s ConnState.connected
  ({ p.1 with retryCount := 0, backoffTime := 1000 }, p.2 ++ [WSEvent.open])

/-- The `message` listener: re-emit the data. -/
def onMessage (s : SessionState) (data : String) : SessionState × List WSEvent :=
  (s, [WSEvent.message data])

/-- Model of `handleError`: log, set state to Error, emit the error; no reconnect is
attempted here (the close handler drives reconnection). -/
def handleError (s : SessionState) (msg : String) : SessionState × List WSEvent :=
  let p := setState s ConnState.error
  (p.1, p.2 ++ [WSEvent.error msg])

/-- Model of `attemptReconnect`: give up with `max_retries_reached` when the retry
budget is exhausted, otherwise enter Reconnecting, bump the counter and start
the backoff timer with delay `min(backoffTime * jitter, maxBackoff)`. The
jitter drawn from `Math.random() * 0.3 + 0.85` is an explicit parameter. -/
def attemptReconnect (s : SessionState) (jitter : ℚ) : SessionState × List WSEvent :=
  let exhausted := match s.maxRetries with
    | some m => decide (m ≤ s.retryCount)
    | none => false
  if exhausted then
    let p := setState s ConnState.disconnected
    (p.1, p.2 ++ [WSEvent.maxRetriesReached])
  else
    let p := setState s ConnState.reconnecting
    let delay := min (p.1.backoffTime * jitter) p.1.maxBackoff
    ({ p.1 with retryCount := p.1.retryCount + 1, reconnectTimer := some delay }, p.2)

/-- The `close` listener: clean up, then reconnect unless the session was
explicitly disconnected. -/
def onClose (s : SessionState) (jitter : ℚ) : SessionState × List WSEvent :=
  let s1 := cleanUp s
  if s1.state ≠ ConnState.disconnected then attemptReconnect s1 jitter
  else (s1, [])

/-- Model of `disconnect`: clean up and force the Disconnected state. -/
def disconnect (s : SessionState) : SessionState × List WSEvent :=
  setState (cleanUp s) ConnState.disconnected

/-- Model of `connect`: no-op when already connecting or connected; otherwise enter
Connecting and acquire a socket handle. -/
def connect (s : SessionState) : SessionState × List WSEvent :=
  if s.state = ConnState.connecting ∨ s.state = ConnState.connected then (s, [])
  else
    let p := setState s ConnState.connecting
    ({ p.1 with wsPresent := true }, p.2)

/-- The timer callback scheduled by `attemptReconnect`: reconnect, then
escalate the backoff time by 1.5 capped at the ceiling. -/
def timerFire (s : SessionState) : SessionState × List WSEvent :=
  let p := connect { s with reconnectTimer := none }
  ({ p.1 with backoffTime := min (p.1.backoffTime * (3 / 2)) p.1.maxBackoff }, p.2)

/-- Model of `send`: fail fast outside Connected or without a socket; `sendOk` models
whether the underlying `ws.send` call throws (`false` = it threw, which is
caught and routed through `handleError`). Returns the boolean result. -/
def send (s : SessionState) (sendOk : Bool) : Bool × SessionState × List WSEvent :=
  if s.state ≠ ConnState.connected ∨ s.wsPresent = false then (false, s, [])
  else if sendOk then (true, s, [])
  else
    let p := handleError s "Error sending message"
    (false, p.1, p.2)

end WebSocketManager

namespace Backoff

/-- The backoff time held by the session before attempt `n` (0-indexed): it
starts at the configured initial value and is escalated by
`backoffTime = min(backoffTime * 1.5, maxBackoff)` each time a scheduled
reconnect fires. -/
def backoffSeq (initial ceiling : ℚ) : ℕ → ℚ
  | 0 => initial
  | n + 1 => min (backoffSeq initial ceiling n * (3 / 2)) ceiling

/-- The delay scheduled for attempt `n`, from `attemptReconnect`:
`min(backoffTime * jitter, maxBackoff)`. -/
def nextDelay (initial ceiling : ℚ) (n : ℕ) (jitter : ℚ) : ℚ :=
  min (backoffSeq initial ceiling n * jitter) ceiling

theorem backoffSeq_nonneg (initial ceiling : ℚ) (h0 : 0 ≤ initial)
    (hc : 0 ≤ ceiling) : ∀ n, 0 ≤ backoffSeq initial ceiling n := by
  intro n
  induction n with
  | zero => exact h0
  | succ m ih =>
    simp only [backoffSeq]
    exact le_min (by nlinarith) hc

end Backoff

namespace Factory

open WebSocketManager

/-- The mutable fields of a `WebSocketManagerFactory`, plus the ghost field
`switchCount`, which counts the `switchEndpoint` calls (each of which rebuilds
the session via `createWebSocketManager`). `maxPrimaryFailCount` is the
constant 3 in the source. -/
structure FactoryState where
  wssEndpoints : List String
  currentEndpointIndex : ℕ
  primaryFailCount : ℕ
  isReconnecting : Bool
  failedEndpoints : Finset ℕ
  switchCount : ℕ
deriving DecidableEq

/-- The factory constructor throws on a missing or empty endpoint list. -/
def mkFactory (eps : List String) : Option FactoryState :=
  if eps.isEmpty then none
  else some
    { wssEndpoints := eps
      currentEndpointIndex := 0
      primaryFailCount := 0
      isReconnecting := false
      failedEndpoints := ∅
      switchCount := 0 }

/-- Model of `getCurrentEndpoint`: the raw array access
`wssEndpoints[currentEndpointIndex]`; `none` models `undefined`. -/
def getCurrentEndpoint (fs : FactoryState) : Option String :=
  fs.wssEndpoints.get? fs.currentEndpointIndex

/-- Model of `WebSocketManagerFactory.switchEndpoint`: the shared rotation core, plus
the factory-specific effects (the reconnecting flag drops, the primary-fail
counter is zeroed when the failed set wraps, and the session is rebuilt —
recorded by the ghost counter). -/
def switchEndpointF (fs : FactoryState) : FactoryState :=
  let n := fs.wssEndpoints.length
  let failed1 := insert fs.currentEndpointIndex fs.failedEndpoints
  let pfc := if n ≤ failed1.card then 0 else fs.primaryFailCount
  let r := Rotation.switchEndpoint n fs.currentEndpointIndex fs.failedEndpoints
  { fs with
      currentEndpointIndex := r.1
      failedEndpoints := r.2
      primaryFailCount := pfc
      isReconnecting := false
      switchCount := fs.switchCount + 1 }

/-- The factory's `open` listener: re-emit `open`, zero the primary-fail
counter. -/
def onOpenF (fs : FactoryState) : FactoryState × List WSEvent :=
  ({ fs with primaryFailCount := 0 }, [WSEvent.open])

/-- The factory's `message` listener: re-emit the data. -/
def onMessageF (fs : FactoryState) (data : String) : FactoryState × List WSEvent :=
  (fs, [WSEvent.message data])

/-- Model of `handleConnectionError`: re-emit the error; while bound to the primary
endpoint, bump the fail counter and switch once it reaches the threshold and
a backup exists. -/
def handleConnectionError (fs : FactoryState) (msg : String) :
    FactoryState × List WSEvent :=
  if fs.currentEndpointIndex = 0 then
    let fs1 := { fs with primaryFailCount := fs.primaryFailCount + 1 }
    if 3 ≤ fs1.primaryFailCount ∧ 1 < fs.wssEndpoints.length then
      (switchEndpointF fs1, [WSEvent.error msg])
    else (fs1, [WSEvent.error msg])
  else (fs, [WSEvent.error msg])

/-- The factory's `state_change` listener. On the Reconnecting transition the
counter only moves when the reconnecting flag was clear; when the threshold
is reached the handler switches and returns early, so that transition is NOT
re-emitted. Every other transition is re-emitted. -/
def onStateChangeF (fs : FactoryState) (st : ConnState) :
    FactoryState × List WSEvent :=
  if st = ConnState.reconnecting ∧ fs.isReconnecting = false then
    let fs1 := { fs with isReconnecting := true }
    if fs1.currentEndpointIndex = 0 then
      let fs2 := { fs1 with primaryFailCount := fs1.primaryFailCount + 1 }
      if 3 ≤ fs2.primaryFailCount then (switchEndpointF fs2, [])
      else (fs2, [WSEvent.stateChange st])
    else (fs1, [WSEvent.stateChange st])
  else if st = ConnState.connected then
    ({ fs with isReconnecting := false }, [WSEvent.stateChange st])
  else (fs, [WSEvent.stateChange st])

/-- Dispatch one event emitted by the owned session to the factory's
listeners (`max_retries_reached` has no listener in the factory). -/
def step (fs : FactoryState) : WSEvent → FactoryState × List WSEvent
  | WSEvent.open => onOpenF fs
  | WSEvent.message d => onMessageF fs d
  | WSEvent.error m => handleConnectionError fs m
  | WSEvent.stateChange st => onStateChangeF fs st
  | WSEvent.maxRetriesReached => (fs, [])

/-- Run a sequence of session events through the factory, collecting the
re-emitted events in order. -/
def run (fs : FactoryState) : List WSEvent → FactoryState × List WSEvent
  | [] => (fs, [])
  | e :: es =>
    let p := step fs e
    let q := run p.1 es
    (q.1, p.2 ++ q.2)

end Factory

namespace ConnectionManager

/-- The `ConnectionState` enum from the request-channel pool (part_003). -/
inductive CMState
  | connecting
  | connected
  | failed
  | switching
deriving DecidableEq, Repr

/-- A constructed `Connection` client, recording the endpoint it was built
for. Any value of this type is a fully-constructed client. -/
structure Client where
  endpoint : String
deriving DecidableEq, Repr

/-- Constructor configuration of the pool. -/
structure CMConfig where
  httpsEndpoints : List String
  retryDelay : Option ℚ := none
  maxRetries : Option ℕ := none
  healthCheckInterval : Option ℚ := none
deriving DecidableEq, Repr

/-- The mutable fields of a `ConnectionManager`. -/
structure PoolState where
  httpsEndpoints : List String
  currentEndpointIndex : ℕ
  connection : Option Client
  state : CMState
  retryDelay : ℚ
  maxRetries : ℕ
  currentRetries : ℕ
  lastTimeUsed : ℕ
  failedEndpoints : Finset ℕ
deriving DecidableEq

/-- The synchronous part of `connect()`: enter Connecting and construct a
client against the current endpoint (the async health test resolves later). -/
def connectSync (s : PoolState) : PoolState :=
  { s with
      state := CMState.connecting
      connection := some ⟨(s.httpsEndpoints.get? s.currentEndpointIndex).getD ""⟩ }

/-- The `ConnectionManager` constructor: throws (`none`) on an empty endpoint
list, otherwise initializes the fields and starts the first connect. The
JavaScript `||` defaults apply (a zero maxRetries also falls back to 3). -/
def mkPool (cfg : CMConfig) : Option PoolState :=
  if cfg.httpsEndpoints.length = 0 then none
  else some (connectSync
    { httpsEndpoints := cfg.httpsEndpoints
      currentEndpointIndex := 0
      connection := none
      state := CMState.connecting
      retryDelay := WebSocketManager.orFalsy cfg.retryDelay 5000
      maxRetries := match cfg.maxRetries with
        | some v => if v = 0 then 3 else v
        | none => 3
      currentRetries := 0
      lastTimeUsed := 0
      failedEndpoints := ∅ })

/-- Model of `getConnection`: touch `lastTimeUsed`; with no client, trigger a connect
attempt and throw "Connection not ready yet" (`Except.error`); otherwise
return the held client. -/
def getConnection (s : PoolState) (now : ℕ) : Except String Client × PoolState :=
  let s1 := { s with lastTimeUsed := now }
  match s1.connection with
  | none => (Except.error "Connection not ready yet", connectSync s1)
  | some c => (Except.ok c, s1)

/-- Model of `getCurrentEndpoint`: the raw array access; `none` is `undefined`. -/
def getCurrentEndpoint (s : PoolState) : Option String :=
  s.httpsEndpoints.get? s.currentEndpointIndex

/-- Model of `ConnectionManager.switchEndpoint`: the shared rotation core (this
variant does not touch a primary-fail counter), then reconnect. -/
def switchEndpointP (s : PoolState) : PoolState :=
  let r := Rotation.switchEndpoint s.httpsEndpoints.length s.currentEndpointIndex
    s.failedEndpoints
  connectSync { s with
      state := CMState.switching
      currentEndpointIndex := r.1
      failedEndpoints := r.2 }

end ConnectionManager

namespace Examples

open WebSocketManager

/-- A factory constructed over the spec's end-to-end endpoint pair. -/
def initF2 : Factory.FactoryState :=
  { wssEndpoints := ["wss://p1", "wss://p2"]
    currentEndpointIndex := 0
    primaryFailCount := 0
    isReconnecting := false
    failedEndpoints := ∅
    switchCount := 0 }

/-- A factory mid-reconnect: the reconnecting flag is set. -/
def flaggedF : Factory.FactoryState :=
  { wssEndpoints := ["wss://p1", "wss://p2"]
    currentEndpointIndex := 0
    primaryFailCount := 1
    isReconnecting := true
    failedEndpoints := ∅
    switchCount := 0 }

/-- A session sitting in the Connected state with a live socket. -/
def connectedSession : SessionState :=
  { state := ConnState.connected
    retryCount := 0
    backoffTime := 1000
    maxBackoff := 30000
    maxRetries := none
    reconnectTimer := none
    wsPresent := true }

/-- A pool that has not yet produced a client. -/
def emptyPool : ConnectionManager.PoolState :=
  { httpsEndpoints := ["https://r1", "https://r2"]
    currentEndpointIndex := 0
    connection := none
    state := ConnectionManager.CMState.connecting
    retryDelay := 5000
    maxRetries := 3
    currentRetries := 0
    lastTimeUsed := 0
    failedEndpoints := ∅ }

/-- The event sequence of three consecutive Reconnecting transitions. -/
def threeReconnects : List WSEvent :=
  [WSEvent.stateChange ConnState.reconnecting,
   WSEvent.stateChange ConnState.reconnecting,
   WSEvent.stateChange ConnState.reconnecting]

/-- The event sequence of three consecutive session errors. -/
def threeErrors : List WSEvent :=
  [WSEvent.error "refused", WSEvent.error "refused", WSEvent.error "refused"]

end Examples

/-- C1: endpoint rotation advance. When a switch is triggered the current
index is first marked failed; if the failed set then covers every index it is
cleared before selection, otherwise selection walks forward circularly from
the current index skipping failed indices. Concretely over [A, B, C] (indices
0, 1, 2): with A and B failed, advancing selects C (index 2), whether the
switch is triggered at A or at B; a further advance from C clears the failed
set and selects A (index 0). -/
theorem C1_rotation_advance :
    (∀ (n current : ℕ) (failed : Finset ℕ), n ≤ (insert current failed).card →
      (Rotation.switchEndpoint n current failed).2 = ∅) ∧
    (∀ (n current : ℕ) (failed : Finset ℕ), (insert current failed).card < n →
      (Rotation.switchEndpoint n current failed).1 ∉
          (Rotation.switchEndpoint n current failed).2 ∧
        (Rotation.switchEndpoint n current failed).2 = insert current failed) ∧
    Rotation.switchEndpoint 3 1 {0} = (2, {0, 1}) ∧
    Rotation.switchEndpoint 3 0 {1} = (2, {0, 1}) ∧
    Rotation.switchEndpoint 3 2 {0, 1} = (0, ∅) :=
  ⟨Rotation.switchEndpoint_clears, Rotation.switchEndpoint_skips,
   by decide, by decide, by decide⟩

/-- Witness for C1 at concrete inputs: a table of size 1 clears its failed
set on advance, and a table of size 3 with failed set not covering selects
an index outside the failed set. -/
theorem C1_rotation_advance_witness :
    (Rotation.switchEndpoint 1 0 ∅).2 = ∅ ∧
    (Rotation.switchEndpoint 3 1 {0}).1 ∉ (Rotation.switchEndpoint 3 1 {0}).2 :=
  ⟨C1_rotation_advance.1 1 0 ∅ (by decide),
   (C1_rotation_advance.2.1 3 1 {0} (by decide)).1⟩

/-- C2: the open listener does reset the attempt counter to 0, but it sets
the backoff time to the literal 1000 rather than to the configured initial
value: a session constructed with initialBackoff 2000 starts with backoffTime
2000 and comes out of the open handler with backoffTime 1000, so the failure
following a success schedules a delay derived from 1000, not from the
configured 2000. -/
theorem C2_open_reset_hardcoded :
    (WebSocketManager.mkSession ⟨some 2000, none, none⟩).backoffTime = 2000 ∧
    (WebSocketManager.onOpen
        (WebSocketManager.mkSession ⟨some 2000, none, none⟩)).1.retryCount = 0 ∧
    (WebSocketManager.onOpen
        (WebSocketManager.mkSession ⟨some 2000, none, none⟩)).1.backoffTime = 1000 ∧
    (1000 : ℚ) ≠ 2000 := by
  refine ⟨by decide, by decide, by decide, by norm_num⟩

namespace Factory

open WebSocketManager

/-- While bound to a non-primary endpoint, no handler moves the endpoint
index or rebuilds the session. -/
theorem step_offPrimary (fs : FactoryState) (e : WSEvent)
    (h : fs.currentEndpointIndex ≠ 0) :
    (step fs e).1.currentEndpointIndex = fs.currentEndpointIndex ∧
      (step fs e).1.switchCount = fs.switchCount := by
  cases e
  · exact ⟨rfl, rfl⟩
  · exact ⟨rfl, rfl⟩
  · simp [step, handleConnectionError, h]
  · rename_i st
    simp only [step, onStateChangeF]
    by_cases h1 : st = ConnState.reconnecting ∧ fs.isReconnecting = false
    · rw [if_pos h1]
      have h2 : ({ fs with isReconnecting := true } :
          FactoryState).currentEndpointIndex ≠ 0 := h
      rw [if_neg h2]
      exact ⟨rfl, rfl⟩
    · rw [if_neg h1]
      by_cases h3 : st = ConnState.connected
      · rw [if_pos h3]
        exact ⟨rfl, rfl⟩
      · rw [if_neg h3]
        exact ⟨rfl, rfl⟩
  · exact ⟨rfl, rfl⟩

/-- While bound to a non-primary endpoint, a whole run of session events
leaves the endpoint index and the rebuild count untouched. -/
theorem run_offPrimary (es : List WSEvent) :
    ∀ fs : FactoryState, fs.currentEndpointIndex ≠ 0 →
      (run fs es).1.currentEndpointIndex = fs.currentEndpointIndex ∧
        (run fs es).1.switchCount = fs.switchCount := by
  induction es with
  | nil => intro fs _; exact ⟨rfl, rfl⟩
  | cons e es ih =>
    intro fs h
    have hstep := step_offPrimary fs e h
    have hrec := ih (step fs e).1 (by rw [hstep.1]; exact h)
    simp only [run]
    exact ⟨by rw [hrec.1, hstep.1], by rw [hrec.2, hstep.2]⟩

end Factory

/-- C3 counterexample: from a freshly constructed factory bound to the
primary endpoint, three consecutive Reconnecting transitions with no
intervening Connected do NOT cause a switch: the reconnecting flag set by the
first transition blocks the counter on the next two, so the counter ends at 1
and no session rebuild happens (the claim requires exactly one). -/
theorem C3_counterexample :
    (Factory.run Examples.initF2 Examples.threeReconnects).1.switchCount = 0 ∧
    (Factory.run Examples.initF2 Examples.threeReconnects).1.primaryFailCount = 1 := by
  decide

/-- C3 amended: while bound to endpoint index 0 the primary-failure counter
increments on a Reconnecting transition only when the reconnecting flag was
clear, and on every error event; when it reaches the threshold 3 (with a
backup configured, on the error path) the factory switches and rebuilds the
session exactly once, and no later event can switch again through this
counter while the factory is bound to the non-primary endpoint; a successful
open resets the counter to zero. -/
theorem C3_amended_switch_policy :
    ((Factory.run Examples.initF2 Examples.threeErrors).1.switchCount = 1 ∧
      (Factory.run Examples.initF2 Examples.threeErrors).1.currentEndpointIndex = 1) ∧
    (∀ es : List WebSocketManager.WSEvent,
      (Factory.run (Factory.run Examples.initF2 Examples.threeErrors).1 es).1.switchCount = 1) ∧
    (∀ fs : Factory.FactoryState, fs.isReconnecting = true →
      (Factory.step fs
          (WebSocketManager.WSEvent.stateChange
            WebSocketManager.ConnState.reconnecting)).1.primaryFailCount =
        fs.primaryFailCount) ∧
    (∀ fs : Factory.FactoryState,
      (Factory.step fs WebSocketManager.WSEvent.open).1.primaryFailCount = 0) := by
  refine ⟨⟨by decide, by decide⟩, ?_, ?_, ?_⟩
  · intro es
    have h := Factory.run_offPrimary es (Factory.run Examples.initF2 Examples.threeErrors).1
      (by decide)
    rw [h.2]
    decide
  · intro fs h
    simp [Factory.step, Factory.onStateChangeF, h]
  · intro fs
    simp [Factory.step, Factory.onOpenF]

/-- Witness for C3 amended: with the reconnecting flag set, a further
Reconnecting transition leaves the counter untouched. -/
theorem C3_amended_switch_policy_witness :
    (Factory.step Examples.flaggedF
        (WebSocketManager.WSEvent.stateChange
          WebSocketManager.ConnState.reconnecting)).1.primaryFailCount =
      Examples.flaggedF.primaryFailCount :=
  C3_amended_switch_policy.2.2.1 Examples.flaggedF rfl

/-- C4 counterexample: the factory owns a session whose error events have
pushed the primary-failure counter to 2; the next Reconnecting state_change
reaches the threshold, triggers the endpoint switch, and returns early, so
that state_change is NOT re-emitted: the run's output contains only the two
forwarded errors, although a state_change was received. -/
theorem C4_counterexample :
    (Factory.run Examples.initF2
        [WebSocketManager.WSEvent.error "refused",
         WebSocketManager.WSEvent.error "refused",
         WebSocketManager.WSEvent.stateChange
           WebSocketManager.ConnState.reconnecting]).1.switchCount = 1 ∧
    (Factory.run Examples.initF2
        [WebSocketManager.WSEvent.error "refused",
         WebSocketManager.WSEvent.error "refused",
         WebSocketManager.WSEvent.stateChange
           WebSocketManager.ConnState.reconnecting]).2 =
      [WebSocketManager.WSEvent.error "refused",
       WebSocketManager.WSEvent.error "refused"] := by
  decide

/-- C4 amended: message, error and open events are forwarded unmodified, and
a state_change is re-emitted unmodified except for the one Reconnecting
transition that triggers the endpoint switch (flag clear, primary endpoint,
counter at 2 about to reach the threshold 3), which is swallowed. -/
theorem C4_amended_forwarding :
    (∀ (fs : Factory.FactoryState) (d : String),
      (Factory.step fs (WebSocketManager.WSEvent.message d)).2 =
        [WebSocketManager.WSEvent.message d]) ∧
    (∀ (fs : Factory.FactoryState) (m : String),
      (Factory.step fs (WebSocketManager.WSEvent.error m)).2 =
        [WebSocketManager.WSEvent.error m]) ∧
    (∀ fs : Factory.FactoryState,
      (Factory.step fs WebSocketManager.WSEvent.open).2 =
        [WebSocketManager.WSEvent.open]) ∧
    (∀ (fs : Factory.FactoryState) (st : WebSocketManager.ConnState),
      ¬(st = WebSocketManager.ConnState.reconnecting ∧
          fs.isReconnecting = false ∧ fs.currentEndpointIndex = 0 ∧
          2 ≤ fs.primaryFailCount) →
      (Factory.step fs (WebSocketManager.WSEvent.stateChange st)).2 =
        [WebSocketManager.WSEvent.stateChange st]) := by
  refine ⟨?_, ?_, ?_, ?_⟩
  · intro fs d; simp [Factory.step, Factory.onMessageF]
  · intro fs m
    simp only [Factory.step, Factory.handleConnectionError]
    split <;> [skip; rfl]
    split <;> rfl
  · intro fs; simp [Factory.step, Factory.onOpenF]
  · intro fs st h
    simp only [Factory.step, Factory.onStateChangeF]
    split
    · rename_i hcond
      split
      · rename_i hzero
        split
        · rename_i hthresh
          exfalso
          exact h ⟨hcond.1, hcond.2, hzero, by omega⟩
        · rfl
      · rfl
    · split <;> rfl

/-- Witness for C4 amended: a Connected transition is re-emitted unchanged. -/
theorem C4_amended_forwarding_witness :
    (Factory.step Examples.initF2
        (WebSocketManager.WSEvent.stateChange
          WebSocketManager.ConnState.connected)).2 =
      [WebSocketManager.WSEvent.stateChange WebSocketManager.ConnState.connected] :=
  C4_amended_forwarding.2.2.2 Examples.initF2 WebSocketManager.ConnState.connected
    (by decide)

/-- C5 counterexample: an inbound error received while the session is
Connected DOES change the session's connection state: `handleError` calls
`setState(ERROR)`, so `getState()` observed immediately after the error
handler runs returns Error, not the pre-error Connected state. -/
theorem C5_counterexample :
    (WebSocketManager.handleError Examples.connectedSession "boom").1.state =
      WebSocketManager.ConnState.error ∧
    WebSocketManager.ConnState.error ≠ WebSocketManager.ConnState.connected := by
  decide

/-- C5 amended: an inbound error while Connected is logged and emitted and
moves the session to the Error state; the error handler itself schedules no
reconnect (the pending-timer field is untouched) — the reconnection path is
driven only by the subsequent close event, which, the state being Error
rather than Disconnected, cleans up and (with an unbounded retry budget)
enters Reconnecting with a timer scheduled. -/
theorem C5_amended_error_path :
    ∀ (s : WebSocketManager.SessionState) (msg : String),
      s.state = WebSocketManager.ConnState.connected →
      (WebSocketManager.handleError s msg).1.state =
        WebSocketManager.ConnState.error ∧
      (WebSocketManager.handleError s msg).1.reconnectTimer = s.reconnectTimer ∧
      (WebSocketManager.handleError s msg).2 =
        [WebSocketManager.WSEvent.stateChange WebSocketManager.ConnState.error,
         WebSocketManager.WSEvent.error msg] ∧
      (s.maxRetries = none → ∀ j : ℚ,
        (WebSocketManager.onClose (WebSocketManager.handleError s msg).1 j).1.state =
          WebSocketManager.ConnState.reconnecting ∧
        ((WebSocketManager.onClose
            (WebSocketManager.handleError s msg).1 j).1.reconnectTimer).isSome = true) := by
  intro s msg h
  have hne : s.state ≠ WebSocketManager.ConnState.error := by
    rw [h]; decide
  refine ⟨?_, ?_, ?_, ?_⟩
  · simp [WebSocketManager.handleError, WebSocketManager.setState, hne]
  · simp [WebSocketManager.handleError, WebSocketManager.setState, hne]
  · simp [WebSocketManager.handleError, WebSocketManager.setState, hne]
  · intro hmax j
    simp [WebSocketManager.handleError, WebSocketManager.setState, hne,
      WebSocketManager.onClose, WebSocketManager.cleanUp,
      WebSocketManager.attemptReconnect, hmax]

/-- Witness for C5 amended at a concrete Connected session. -/
theorem C5_amended_error_path_witness :
    (WebSocketManager.handleError Examples.connectedSession "ws failure").1.state =
      WebSocketManager.ConnState.error ∧
    (WebSocketManager.handleError
        Examples.connectedSession "ws failure").1.reconnectTimer =
      Examples.connectedSession.reconnectTimer :=
  ⟨(C5_amended_error_path Examples.connectedSession "ws failure" rfl).1,
   (C5_amended_error_path Examples.connectedSession "ws failure" rfl).2.1⟩

/-- C6: for every attempt count the scheduled reconnect delay
`min(backoffTime * jitter, maxBackoff)` with jitter in [0.85, 1.15] is
non-negative and never exceeds ceiling * 1.15, and on the first attempt after
a reset it is at least initial * 0.85 (for a configuration with
0 ≤ initial ≤ ceiling). -/
theorem C6_backoff_bounds :
    ∀ (initial ceiling : ℚ) (n : ℕ) (jitter : ℚ),
      0 ≤ initial → initial ≤ ceiling →
      17 / 20 ≤ jitter → jitter ≤ 23 / 20 →
      0 ≤ Backoff.nextDelay initial ceiling n jitter ∧
      Backoff.nextDelay initial ceiling n jitter ≤ ceiling * (23 / 20) ∧
      (n = 0 → initial * (17 / 20) ≤ Backoff.nextDelay initial ceiling n jitter) := by
  intro initial ceiling n jitter h0 hic hj1 hj2
  have hc : 0 ≤ ceiling := le_trans h0 hic
  have hb := Backoff.backoffSeq_nonneg initial ceiling h0 hc n
  have hjpos : (0 : ℚ) ≤ jitter := by linarith
  refine ⟨?_, ?_, ?_⟩
  · simp only [Backoff.nextDelay]
    exact le_min (mul_nonneg hb hjpos) hc
  · have h1 : Backoff.nextDelay initial ceiling n jitter ≤ ceiling := by
      simp only [Backoff.nextDelay]
      exact min_le_right _ _
    nlinarith
  · intro hn
    subst hn
    simp only [Backoff.nextDelay, Backoff.backoffSeq]
    refine le_min ?_ ?_
    · nlinarith
    · nlinarith

/-- Witness for C6 at the default configuration and unit jitter. -/
theorem C6_backoff_bounds_witness :
    0 ≤ Backoff.nextDelay 1000 30000 0 1 ∧
    Backoff.nextDelay 1000 30000 0 1 ≤ 30000 * (23 / 20) ∧
    (0 = 0 → (1000 : ℚ) * (17 / 20) ≤ Backoff.nextDelay 1000 30000 0 1) :=
  C6_backoff_bounds 1000 30000 0 1 (by norm_num) (by norm_num)
    (by norm_num) (by norm_num)

/-- C7: send succeeds only in Connected: in every other state, or without a
live socket handle, it returns false (a value, not an exception), leaves the
session untouched and emits nothing. -/
theorem C7_send_fails_gracefully :
    ∀ (s : WebSocketManager.SessionState) (sendOk : Bool),
      s.state ≠ WebSocketManager.ConnState.connected ∨ s.wsPresent = false →
      (WebSocketManager.send s sendOk).1 = false ∧
      (WebSocketManager.send s sendOk).2.1 = s ∧
      (WebSocketManager.send s sendOk).2.2 = [] := by
  intro s ok h
  simp [WebSocketManager.send, if_pos h]

/-- Witness for C7: a freshly constructed (Disconnected) session refuses a
send with a false return. -/
theorem C7_send_fails_gracefully_witness :
    (WebSocketManager.send (WebSocketManager.mkSession ⟨none, none, none⟩) true).1 =
      false :=
  (C7_send_fails_gracefully (WebSocketManager.mkSession ⟨none, none, none⟩) true
    (Or.inl (by decide))).1

/-- C8: disconnect is idempotent: a second disconnect changes nothing and
emits nothing; after a disconnect the session is Disconnected with no pending
reconnect timer, and a close event arriving afterwards leaves the session
unchanged — in particular it schedules no reconnect, whatever jitter the
backoff would have drawn. -/
theorem C8_disconnect_idempotent :
    ∀ (s : WebSocketManager.SessionState) (jitter : ℚ),
      (WebSocketManager.disconnect (WebSocketManager.disconnect s).1).1 =
        (WebSocketManager.disconnect s).1 ∧
      (WebSocketManager.disconnect (WebSocketManager.disconnect s).1).2 = [] ∧
      (WebSocketManager.disconnect s).1.state =
        WebSocketManager.ConnState.disconnected ∧
      (WebSocketManager.disconnect s).1.reconnectTimer = none ∧
      (WebSocketManager.onClose (WebSocketManager.disconnect s).1 jitter).1 =
        (WebSocketManager.disconnect s).1 ∧
      (WebSocketManager.onClose (WebSocketManager.disconnect s).1 jitter).2 = [] := by
  intro s jitter
  obtain ⟨st, rc, bt, mb, mr, rt, ws⟩ := s
  by_cases h : st = WebSocketManager.ConnState.disconnected <;>
    simp [WebSocketManager.disconnect, WebSocketManager.cleanUp,
      WebSocketManager.setState, WebSocketManager.onClose, h]

/-- C9: getConnection either returns the held, fully-constructed client or
explicitly signals unavailability: with no client it triggers a connect
attempt (the pool enters Connecting and constructs a client for the current
endpoint) and throws "Connection not ready yet" rather than blocking; when a
client is held, that exact client is returned. -/
theorem C9_getConnection_ready_or_signal :
    ∀ (s : ConnectionManager.PoolState) (now : ℕ),
      (s.connection = none →
        (ConnectionManager.getConnection s now).1 =
          Except.error "Connection not ready yet" ∧
        (ConnectionManager.getConnection s now).2.state =
          ConnectionManager.CMState.connecting ∧
        ((ConnectionManager.getConnection s now).2.connection).isSome = true) ∧
      (∀ c : ConnectionManager.Client, s.connection = some c →
        (ConnectionManager.getConnection s now).1 = Except.ok c ∧
        (ConnectionManager.getConnection s now).2.connection = some c) := by
  intro s now
  obtain ⟨eps, idx, conn, st, rd, mr, cr, lt, fe⟩ := s
  constructor
  · intro h
    subst h
    simp [ConnectionManager.getConnection, ConnectionManager.connectSync]
  · intro c h
    subst h
    simp [ConnectionManager.getConnection]

/-- Witness for C9: a pool holding no client signals unavailability and comes
out holding a freshly constructed client. -/
theorem C9_getConnection_ready_or_signal_witness :
    (ConnectionManager.getConnection Examples.emptyPool 7).1 =
      Except.error "Connection not ready yet" ∧
    ((ConnectionManager.getConnection Examples.emptyPool 7).2.connection).isSome =
      true :=
  ⟨((C9_getConnection_ready_or_signal Examples.emptyPool 7).1 rfl).1,
   ((C9_getConnection_ready_or_signal Examples.emptyPool 7).1 rfl).2.2⟩

/-- C10: both constructors throw exactly on an empty endpoint list; a
successful construction starts with the endpoint index in range; every
switchEndpoint call keeps the index within [0, length); and with the index in
range getCurrentEndpoint returns an element of the configured list, never an
undefined value. -/
theorem C10_endpoint_index_invariant :
    (∀ eps : List String, (Factory.mkFactory eps).isSome = true ↔ eps ≠ []) ∧
    (∀ (eps : List String) (fs : Factory.FactoryState),
      Factory.mkFactory eps = some fs →
      fs.currentEndpointIndex < fs.wssEndpoints.length) ∧
    (∀ fs : Factory.FactoryState,
      fs.currentEndpointIndex < fs.wssEndpoints.length →
      (Factory.switchEndpointF fs).currentEndpointIndex <
          (Factory.switchEndpointF fs).wssEndpoints.length ∧
        (Factory.getCurrentEndpoint fs).isSome = true) ∧
    (∀ cfg : ConnectionManager.CMConfig,
      (ConnectionManager.mkPool cfg).isSome = true ↔ cfg.httpsEndpoints ≠ []) ∧
    (∀ (cfg : ConnectionManager.CMConfig) (s : ConnectionManager.PoolState),
      ConnectionManager.mkPool cfg = some s →
      s.currentEndpointIndex < s.httpsEndpoints.length) ∧
    (∀ s : ConnectionManager.PoolState,
      s.currentEndpointIndex < s.httpsEndpoints.length →
      (ConnectionManager.switchEndpointP s).currentEndpointIndex <
          (ConnectionManager.switchEndpointP s).httpsEndpoints.length ∧
        (ConnectionManager.getCurrentEndpoint s).isSome = true) := by
  refine ⟨?_, ?_, ?_, ?_, ?_, ?_⟩
  · intro eps
    cases eps with
    | nil => simp [Factory.mkFactory]
    | cons a l => simp [Factory.mkFactory]
  · intro eps fs hmk
    cases eps with
    | nil => simp [Factory.mkFactory] at hmk
    | cons a l =>
      simp [Factory.mkFactory] at hmk
      rw [← hmk]
      simp
  · intro fs h
    have hn : 0 < fs.wssEndpoints.length := lt_of_le_of_lt (Nat.zero_le _) h
    refine ⟨?_, ?_⟩
    · exact Rotation.switchEndpoint_lt _ _ _ hn
    · simp [Factory.getCurrentEndpoint, List.getElem?_eq_getElem h]
  · intro cfg
    by_cases hl : cfg.httpsEndpoints.length = 0
    · simp [ConnectionManager.mkPool, hl, List.length_eq_zero.mp hl]
    · simp only [ConnectionManager.mkPool, hl, if_false]
      constructor
      · intro _ hnil
        rw [hnil] at hl
        exact hl rfl
      · intro _
        rfl
  · intro cfg s hmk
    by_cases hl : cfg.httpsEndpoints.length = 0
    · simp [ConnectionManager.mkPool, hl] at hmk
    · simp only [ConnectionManager.mkPool, hl, if_false, Option.some.injEq] at hmk
      rw [← hmk]
      simp [ConnectionManager.connectSync]
      omega
  · intro s h
    have hn : 0 < s.httpsEndpoints.length := lt_of_le_of_lt (Nat.zero_le _) h
    refine ⟨?_, ?_⟩
    · exact Rotation.switchEndpoint_lt _ _ _ hn
    · simp [ConnectionManager.getCurrentEndpoint, List.getElem?_eq_getElem h]

/-- Witness for C10 at concrete inputs: the two-endpoint factory keeps its
index in range across a switch and resolves its current endpoint. -/
theorem C10_endpoint_index_invariant_witness :
    (Factory.mkFactory ["wss://p1", "wss://p2"]).isSome = true ∧
    ((Factory.switchEndpointF Examples.initF2).currentEndpointIndex <
        (Factory.switchEndpointF Examples.initF2).wssEndpoints.length ∧
      (Factory.getCurrentEndpoint Examples.initF2).isSome = true) :=
  ⟨(C10_endpoint_index_invariant.1 ["wss://p1", "wss://p2"]).mpr (by decide),
   C10_endpoint_index_invariant.2.2.1 Examples.initF2 (by decide)⟩

/-- Witness for C8 at a concrete Connected session: the second disconnect
changes nothing. -/
theorem C8_disconnect_idempotent_witness :
    (WebSocketManager.disconnect
        (WebSocketManager.disconnect Examples.connectedSession).1).1 =
      (WebSocketManager.disconnect Examples.connectedSession).1 :=
  (C8_disconnect_idempotent Examples.connectedSession 1).1
